import Mathlib

/-!
Shallow embedding of the runtime bridge of the chatgpt-apps-sdk-devtools
repository: the simulated global-state object maintained by DevContainer
(src/src/components/DevContainer.tsx and the revision in src/unnamed/part_005),
the phase handlers (instant load, delayed load, empty, error, loading), the
loader resolution of part_005, and the selection persistence of
MultiWidgetRouter (src/src/components/MultiWidgetRouter.tsx).

Loader payloads are modelled by a type parameter. A JavaScript value that may
be absent from an object is an Option field; Object.assign is the fieldwise
merge in which a present field of the patch wins. A computation that may throw
is an Except value; a try/catch that swallows the failure is a match that
keeps the previous state.
-/

namespace Devtools

/-- Theme values accepted by the container (light or dark). -/
inductive Theme where
  | light
  | dark
deriving DecidableEq

/-- Device presets of the toolbar: desktop, tablet, mobile. -/
inductive DeviceType where
  | desktop
  | tablet
  | mobile
deriving DecidableEq

/-- The userAgent object built by getUserAgent in DevContainer.tsx. -/
structure UserAgent where
  deviceType : DeviceType
  hover : Bool
  touch : Bool
deriving DecidableEq

/-- getUserAgent from DevContainer.tsx: hover on desktop, touch elsewhere. -/
def getUserAgent (device : DeviceType) : UserAgent :=
  { deviceType := device
    hover := decide (device = DeviceType.desktop)
    touch := decide (device ≠ DeviceType.desktop) }

/-- The shapes taken by the toolOutput global in the source: the null value,
an empty object, an error object carrying a message, the fixed error object of
handleShowError carrying an error text and a message text, or a value produced
by a caller-supplied loader. -/
inductive ToolOutput (α : Type) where
  | null
  | emptyObj
  | errObj (msg : String)
  | errFull (error : String) (msg : String)
  | data (value : α)
deriving DecidableEq

/-- The data fields of the window.openai object that DevContainer maintains
(the mock methods callTool, sendFollowUpMessage, openExternal and
setWidgetState are omitted: no claim observes them). A field holds none when
the key is absent from the object. The same shape serves as the partial
update passed to setGlobals. -/
structure OpenAiGlobals (α : Type) where
  toolOutput : Option (ToolOutput α) := none
  theme : Option Theme := none
  locale : Option String := none
  maxHeight : Option Nat := none
  userAgent : Option UserAgent := none
deriving DecidableEq

/-- A key of the patch wins when present, else the target keeps its value. -/
def orField {β : Type} (patchField targetField : Option β) : Option β :=
  match patchField with
  | some v => some v
  | none => targetField

/-- Object.assign(target, patch): shallow merge, later keys win. -/
def objectAssign {α : Type} (target patch : OpenAiGlobals α) : OpenAiGlobals α :=
  { toolOutput := orField patch.toolOutput target.toolOutput
    theme := orField patch.theme target.theme
    locale := orField patch.locale target.locale
    maxHeight := orField patch.maxHeight target.maxHeight
    userAgent := orField patch.userAgent target.userAgent }

/-- The freshly created empty object assigned to window.openai by setGlobals
when it finds no existing one. -/
def emptyOpenAiGlobals {α : Type} : OpenAiGlobals α := {}

/-- setGlobals from DevContainer.tsx lines 223 to 230: when window.openai is
absent it creates an empty object, then Object.assign merges the partial
update, then a SetGlobalsEvent carrying exactly the partial update is
dispatched. The Except result type records that the source function could in
principle throw; its body never does. -/
def setGlobals {α : Type} (patch : OpenAiGlobals α) (windowOpenai : Option (OpenAiGlobals α)) :
    Except String (OpenAiGlobals α) :=
  Except.ok (objectAssign (windowOpenai.getD emptyOpenAiGlobals) patch)

/-- The initialize effect of DevContainer.tsx lines 242 to 276: it assigns a
freshly built object to window.openai, with toolOutput null, the current mock
theme, locale en-US, maxHeight 600 and the userAgent for the current device.
The previous value of window.openai is not consulted. -/
def initializeOpenai {α : Type} (mockTheme : Theme) (deviceType : DeviceType)
    (_prevOpenai : Option (OpenAiGlobals α)) : OpenAiGlobals α :=
  { toolOutput := some ToolOutput.null
    theme := some mockTheme
    locale := some "en-US"
    maxHeight := some 600
    userAgent := some (getUserAgent deviceType) }

/-- The partial update dispatched by the theme effect of DevContainer.tsx
lines 279 to 281: it contains only the theme key. -/
def themeUpdatePatch {α : Type} (mockTheme : Theme) : OpenAiGlobals α :=
  { theme := some mockTheme }

theorem orField_some {β : Type} (v : β) (t : Option β) : orField (some v) t = some v := rfl

theorem orField_none {β : Type} (t : Option β) : orField none t = t := rfl

/-- A concrete pre-existing GlobalState used by counterexamples: it holds a
loader result 7 and the dark theme. -/
def prevGlobalsC2 : OpenAiGlobals Nat :=
  { toolOutput := some (ToolOutput.data 7)
    theme := some Theme.dark
    locale := some "en-US"
    maxHeight := some 600
    userAgent := some (getUserAgent DeviceType.desktop) }

/-- Claim C2 counterexample: running the initialize effect while a GlobalState
already exists does not leave it unchanged; the existing toolOutput value 7 is
reset to null. Refutes idempotence of initialization. -/
theorem initialize_overwrites_existing_globals_cex :
    initializeOpenai Theme.light DeviceType.desktop (some prevGlobalsC2) ≠ prevGlobalsC2 ∧
    (initializeOpenai Theme.light DeviceType.desktop (some prevGlobalsC2)).toolOutput =
      some ToolOutput.null := by
  decide

/-- Claim C2, amended: initialization is not idempotent and not guarded on
absence. The initialize effect ignores any existing GlobalState: its result is
the same whatever object existed before, and it always resets toolOutput to
null, the theme to the given mock theme, locale to en-US and maxHeight to 600.
Only setGlobals has a create-if-absent guard. -/
theorem initialize_replaces_globals {α : Type} (mockTheme : Theme) (deviceType : DeviceType)
    (prev prev2 : Option (OpenAiGlobals α)) :
    initializeOpenai mockTheme deviceType prev = initializeOpenai mockTheme deviceType prev2 ∧
    (initializeOpenai mockTheme deviceType prev).toolOutput = some ToolOutput.null ∧
    (initializeOpenai mockTheme deviceType prev).theme = some mockTheme ∧
    (initializeOpenai mockTheme deviceType prev).locale = some "en-US" ∧
    (initializeOpenai mockTheme deviceType prev).maxHeight = some 600 := by
  exact ⟨rfl, rfl, rfl, rfl, rfl⟩

/-- Claim C3 counterexample: calling setGlobals while window.openai is absent
does not signal an error; it returns normally, silently creating a GlobalState
that holds the merged partial update. -/
theorem publish_before_initialize_succeeds_cex :
    setGlobals (themeUpdatePatch Theme.light) (none : Option (OpenAiGlobals Nat)) =
      Except.ok { theme := some Theme.light } ∧
    (setGlobals (themeUpdatePatch Theme.light) (none : Option (OpenAiGlobals Nat))).isOk = true := by
  exact ⟨rfl, rfl⟩

/-- Claim C3, amended: publish before initialize does not fail fast. When the
GlobalState object is absent, setGlobals creates an empty object and merges
the partial update into it, so the call succeeds and the resulting GlobalState
is exactly the partial update (keys absent from the update stay absent). -/
theorem publish_before_initialize_creates_state {α : Type} (patch : OpenAiGlobals α) :
    setGlobals patch none = Except.ok patch := by
  obtain ⟨a, b, c, d, e⟩ := patch
  simp only [setGlobals, objectAssign, emptyOpenAiGlobals, Option.getD]
  cases a <;> cases b <;> cases c <;> cases d <;> cases e <;> rfl

/-- Claim C10: a theme change publishes a partial update containing only the
theme key, and since setGlobals is a shallow merge, every field of the
existing GlobalState other than theme, in particular toolOutput, is unchanged
by the publish. -/
theorem theme_update_preserves_other_globals {α : Type} (mockTheme : Theme)
    (g : OpenAiGlobals α) :
    (themeUpdatePatch (α := α) mockTheme).toolOutput = none ∧
    (themeUpdatePatch (α := α) mockTheme).locale = none ∧
    (themeUpdatePatch (α := α) mockTheme).maxHeight = none ∧
    (themeUpdatePatch (α := α) mockTheme).userAgent = none ∧
    setGlobals (themeUpdatePatch mockTheme) (some g) =
      Except.ok { g with theme := some mockTheme } := by
  refine ⟨rfl, rfl, rfl, rfl, ?_⟩
  obtain ⟨a, b, c, d, e⟩ := g
  rfl

/-- The widget state phases of DevContainer (the widgetState useState). -/
inductive Phase where
  | loading
  | data
  | error
  | empty
deriving DecidableEq

/-- What a caller-supplied loader throws: a JavaScript Error object carrying a
message, or any other thrown value (which has no message). -/
inductive LoaderFailure where
  | jsError (msg : String)
  | nonErrorThrow
deriving DecidableEq

/-- The normalization applied in every catch block of the data handlers:
error instanceof Error then error.message else the Unknown error text. -/
def failureMessage : LoaderFailure → String
  | LoaderFailure.jsError msg => msg
  | LoaderFailure.nonErrorThrow => "Unknown error"

/-- The component state of DevContainer observed by the claims: the phase,
the isLoading flag and the window.openai object (none before any creation). -/
structure DCState (α : Type) where
  widgetState : Phase
  isLoading : Bool
  openai : Option (OpenAiGlobals α)
deriving DecidableEq

/-- Running setGlobals against the component state: window.openai becomes the
merge of the previous object (or a fresh empty one) with the patch. -/
def applySetGlobals {α : Type} (st : DCState α) (patch : OpenAiGlobals α) : DCState α :=
  { st with openai := some (objectAssign (st.openai.getD emptyOpenAiGlobals) patch) }

/-- The toolOutput key of the window.openai object of a component state, none
when the object or the key is absent. -/
def toolOutputOf {α : Type} (st : DCState α) : Option (ToolOutput α) :=
  match st.openai with
  | none => none
  | some g => g.toolOutput

/-- handleInstantData from DevContainer.tsx lines 291 to 312 (identical in
part_005 up to loader resolution). The argument is the observed run of the
resolved loader: none when no loader is resolved, some ok v when the awaited
loader returns v, some error e when it throws or rejects with e. The body is
the try block: set phase loading and clear isLoading; without a loader publish
an empty object and commit phase data; with a loader publish its value and
commit phase data; the catch block commits phase error and publishes an error
object with the normalized message. The function is total: no failure of the
loader escapes it. -/
def handleInstantData {α : Type} (loaderRun : Option (Except LoaderFailure α))
    (st : DCState α) : DCState α :=
  let st1 : DCState α := { st with widgetState := Phase.loading, isLoading := false }
  match loaderRun with
  | none =>
      let st2 := applySetGlobals st1 { toolOutput := some ToolOutput.emptyObj }
      { st2 with widgetState := Phase.data }
  | some (Except.ok value) =>
      let st2 := applySetGlobals st1 { toolOutput := some (ToolOutput.data value) }
      { st2 with widgetState := Phase.data }
  | some (Except.error e) =>
      let st2 : DCState α := { st1 with widgetState := Phase.error }
      applySetGlobals st2 { toolOutput := some (ToolOutput.errObj (failureMessage e)) }

/-- handleShowEmpty from DevContainer.tsx lines 343 to 361 (identical in
part_005 up to loader resolution). Phase is set to empty up front; without a
resolvable empty-loader an empty object is published; a successful
empty-loader publishes its value; a throwing empty-loader is caught and an
empty object is published. No branch touches the phase again. -/
def handleShowEmpty {α : Type} (emptyLoaderRun : Option (Except LoaderFailure α))
    (st : DCState α) : DCState α :=
  let st1 : DCState α := { st with widgetState := Phase.empty, isLoading := false }
  match emptyLoaderRun with
  | none => applySetGlobals st1 { toolOutput := some ToolOutput.emptyObj }
  | some (Except.ok value) => applySetGlobals st1 { toolOutput := some (ToolOutput.data value) }
  | some (Except.error _) => applySetGlobals st1 { toolOutput := some ToolOutput.emptyObj }

/-- handleShowError from DevContainer.tsx lines 363 to 373: phase error with
the fixed synthetic payload. -/
def handleShowError {α : Type} (st : DCState α) : DCState α :=
  let st1 : DCState α := { st with widgetState := Phase.error, isLoading := false }
  applySetGlobals st1
    { toolOutput := some (ToolOutput.errFull "Something went wrong"
        "This is a simulated error for testing error states") }

/-- handleShowLoading from DevContainer.tsx lines 375 to 380: phase loading,
toolOutput null, no loader invoked. -/
def handleShowLoading {α : Type} (st : DCState α) : DCState α :=
  let st1 : DCState α := { st with widgetState := Phase.loading, isLoading := false }
  applySetGlobals st1 { toolOutput := some ToolOutput.null }

/-- Claim C4: for every loader that throws or rejects with an Error carrying
message m, the instant-load handler commits phase Error and publishes the
error object with message m as toolOutput; and for every failing loader run,
Error or not, the handler returns normally (it is a total function whose catch
branch also yields phase Error), so the failure never propagates to the
caller. -/
theorem instant_load_error_commits_error_payload {α : Type} (m : String)
    (e : LoaderFailure) (st : DCState α) :
    (handleInstantData (some (Except.error (LoaderFailure.jsError m))) st).widgetState =
      Phase.error ∧
    toolOutputOf (handleInstantData (some (Except.error (LoaderFailure.jsError m))) st) =
      some (ToolOutput.errObj m) ∧
    (handleInstantData (some (Except.error e)) st).widgetState = Phase.error ∧
    toolOutputOf (handleInstantData (some (Except.error e)) st) =
      some (ToolOutput.errObj (failureMessage e)) := by
  exact ⟨rfl, rfl, rfl, rfl⟩

/-- Claim C5: a throwing empty-loader leaves the committed phase Empty, never
Error, with an empty-object toolOutput; and with no resolvable empty-loader
the phase is Empty with an empty-object toolOutput as well. -/
theorem show_empty_degrades_to_empty_object {α : Type} (e : LoaderFailure)
    (st : DCState α) :
    (handleShowEmpty (some (Except.error e)) st).widgetState = Phase.empty ∧
    toolOutputOf (handleShowEmpty (some (Except.error e)) st) = some ToolOutput.emptyObj ∧
    (handleShowEmpty (some (Except.error e)) st).widgetState ≠ Phase.error ∧
    (handleShowEmpty (none : Option (Except LoaderFailure α)) st).widgetState = Phase.empty ∧
    toolOutputOf (handleShowEmpty (none : Option (Except LoaderFailure α)) st) =
      some ToolOutput.emptyObj := by
  refine ⟨rfl, rfl, ?_, rfl, rfl⟩
  intro h
  exact Phase.noConfusion h

/-- A WidgetDefinition as normalized by DevContainer (part_005): id, display
name and the optional per-widget loader pair. Loaders are opaque values of a
type parameter L (the claims compare which loader is resolved, never call
it); the render component is omitted as no claim observes it. -/
structure Widget (L : Type) where
  id : String
  name : String
  dataLoader : Option L := none
  emptyDataLoader : Option L := none
deriving DecidableEq

/-- normalizedWidgets dot find of part_005: first widget whose id matches. -/
def findWidget {L : Type} (widgets : List (Widget L)) (widgetId : String) : Option (Widget L) :=
  widgets.find? (fun w => w.id == widgetId)

/-- Indexing a JavaScript record object by key, as in
normalizedDataLoaders[activeDataLoader]; the registry is the ordered list of
its entries. -/
def recordGet {L : Type} (registry : List (String × L)) (key : String) : Option L :=
  (registry.find? (fun entry => entry.fst == key)).map Prod.snd

/-- getActiveDataLoader from part_005 lines 331 to 336: the widget-specific
dataLoader when the active widget declares one, else the shared registry entry
for the active data-source key. -/
def getActiveDataLoader {L : Type} (widgets : List (Widget L)) (activeWidgetId : String)
    (normalizedDataLoaders : List (String × L)) (activeDataLoaderKey : String) : Option L :=
  match (findWidget widgets activeWidgetId).bind Widget.dataLoader with
  | some l => some l
  | none => recordGet normalizedDataLoaders activeDataLoaderKey

/-- getActiveEmptyLoader from part_005 lines 338 to 343: same precedence for
the empty-loader. -/
def getActiveEmptyLoader {L : Type} (widgets : List (Widget L)) (activeWidgetId : String)
    (normalizedEmptyLoaders : List (String × L)) (activeDataLoaderKey : String) : Option L :=
  match (findWidget widgets activeWidgetId).bind Widget.emptyDataLoader with
  | some l => some l
  | none => recordGet normalizedEmptyLoaders activeDataLoaderKey

/-- The data-source selector visibility condition of part_005 (around line
540): the selector with all keys of the shared registry is rendered only when
the registry has more than one key and the active widget has no dataLoader of
its own; otherwise no data-source key is offered. -/
def offeredDataSourceKeys {L : Type} (widgets : List (Widget L)) (activeWidgetId : String)
    (normalizedDataLoaders : List (String × L)) : List String :=
  if normalizedDataLoaders.length > 1 &&
      ((findWidget widgets activeWidgetId).bind Widget.dataLoader).isNone then
    normalizedDataLoaders.map Prod.fst
  else
    []

/-- The two widgets of the C6 counterexample: widget a with its own loader,
widget b without one. -/
def widgetsC6 : List (Widget Nat) :=
  [{ id := "a", name := "A", dataLoader := some 1 },
   { id := "b", name := "B" }]

/-- A shared registry with a single key k. -/
def registryC6 : List (String × Nat) := [("k", 5)]

/-- Claim C6 counterexample: with a single-entry shared registry, the widget
without its own loader is offered no data-source key at all, not the list of
all shared-registry keys: the selector is suppressed whenever the registry has
at most one key. -/
theorem single_key_registry_offers_no_keys_cex :
    offeredDataSourceKeys widgetsC6 "b" registryC6 = [] ∧
    registryC6.map Prod.fst = ["k"] ∧
    findWidget widgetsC6 "b" = some { id := "b", name := "B" } ∧
    (findWidget widgetsC6 "b").bind Widget.dataLoader = none := by
  exact ⟨rfl, rfl, rfl, rfl⟩

/-- Claim C6, amended: a widget-declared dataLoader shadows the shared
registry unconditionally, the same holding independently for the empty-loader,
and such a widget is offered no data-source keys; a widget without its own
loader is offered all shared-registry keys whenever the registry has more than
one key (with at most one key the data-source choice is suppressed for every
widget). -/
theorem widget_loader_precedence {L : Type} (widgets : List (Widget L))
    (activeWidgetId : String) (dataRegistry emptyRegistry : List (String × L))
    (key : String) (w : Widget L) (l el sharedLoader : L)
    (hw : findWidget widgets activeWidgetId = some w)
    (hl : w.dataLoader = some l)
    (hel : w.emptyDataLoader = some el)
    (_hshared : recordGet dataRegistry key = some sharedLoader) :
    getActiveDataLoader widgets activeWidgetId dataRegistry key = some l ∧
    getActiveEmptyLoader widgets activeWidgetId emptyRegistry key = some el ∧
    offeredDataSourceKeys widgets activeWidgetId dataRegistry = [] ∧
    (∀ otherId w2, findWidget widgets otherId = some w2 → w2.dataLoader = none →
      dataRegistry.length > 1 →
      offeredDataSourceKeys widgets otherId dataRegistry = dataRegistry.map Prod.fst) := by
  refine ⟨?_, ?_, ?_, ?_⟩
  · simp [getActiveDataLoader, hw, hl]
  · simp [getActiveEmptyLoader, hw, hel]
  · simp [offeredDataSourceKeys, hw, hl]
  · intro otherId w2 hw2 hnone hlen
    simp [offeredDataSourceKeys, hw2, hnone, hlen]

/-- The widget with both a dataLoader and an emptyDataLoader of its own, used
by the C6 witness. -/
def widgetAC6 : Widget Nat :=
  { id := "a", name := "A", dataLoader := some 1, emptyDataLoader := some 3 }

/-- The widget list of the C6 witness: widget a with its own loader pair and
widget b without one. -/
def widgetsC6w : List (Widget Nat) := [widgetAC6, { id := "b", name := "B" }]

/-- A two-key shared data-loader registry for the C6 witness. -/
def dataRegistryC6w : List (String × Nat) := [("k", 5), ("m", 6)]

/-- A two-key shared empty-loader registry for the C6 witness. -/
def emptyRegistryC6w : List (String × Nat) := [("k", 7), ("m", 8)]

/-- Witness for the C6 theorem at a concrete configuration: widget a shadows
the shared entry of a two-key registry, widget b without its own loader is
offered both keys. -/
theorem widget_loader_precedence_witness :
    getActiveDataLoader widgetsC6w "a" dataRegistryC6w "k" = some 1 ∧
    getActiveEmptyLoader widgetsC6w "a" emptyRegistryC6w "k" = some 3 ∧
    offeredDataSourceKeys widgetsC6w "a" dataRegistryC6w = [] ∧
    (∀ otherId w2, findWidget widgetsC6w otherId = some w2 → w2.dataLoader = none →
      dataRegistryC6w.length > 1 →
      offeredDataSourceKeys widgetsC6w otherId dataRegistryC6w =
        dataRegistryC6w.map Prod.fst) :=
  widget_loader_precedence widgetsC6w "a" dataRegistryC6w emptyRegistryC6w "k"
    widgetAC6 1 3 5 (by decide) (by decide) (by decide) (by decide)

/-- A widget entry of MultiWidgetRouter (src/src/components/MultiWidgetRouter.tsx):
id and display name; the render component is omitted as no claim observes it.
Selecting the component of an absent entry is the crash the claims discuss,
modelled by the none result of list indexing. -/
structure MWidget where
  id : String
  name : String
deriving DecidableEq

/-- JavaScript Array.prototype.findIndex restricted to its successful results:
some i when the first match sits at index i, none when findIndex returns -1.
Every use in MultiWidgetRouter immediately guards with index greater or equal
to zero, so the embedding folds the guard into the Option. -/
def findIndexAux (p : MWidget → Bool) : List MWidget → Option Nat
  | [] => none
  | w :: ws => if p w then some 0 else (findIndexAux p ws).map (fun i => i + 1)

/-- widgets.findIndex of a given widget id, with the nonnegative guard. -/
def candidateIndex (widgets : List MWidget) (widgetId : String) : Option Nat :=
  findIndexAux (fun w => w.id == widgetId) widgets

theorem findIndexAux_get {p : MWidget → Bool} {ws : List MWidget} {i : Nat}
    (h : findIndexAux p ws = some i) : ∃ w, ws.get? i = some w ∧ p w = true := by
  induction ws generalizing i with
  | nil => simp [findIndexAux] at h
  | cons w ws ih =>
    by_cases hw : p w
    · have h0 : i = 0 := by
        simp [findIndexAux, hw] at h
        omega
      subst h0
      exact ⟨w, rfl, hw⟩
    · cases hrec : findIndexAux p ws with
      | none => simp [findIndexAux, hw, hrec] at h
      | some j =>
        simp only [findIndexAux, if_neg hw, hrec, Option.map] at h
        have hij : i = j + 1 := by
          cases h
          rfl
        subst hij
        obtain ⟨w2, hget, hp⟩ := ih hrec
        exact ⟨w2, hget, hp⟩

theorem findIndexAux_lt_length {p : MWidget → Bool} {ws : List MWidget} {i : Nat}
    (h : findIndexAux p ws = some i) : i < ws.length := by
  induction ws generalizing i with
  | nil => simp [findIndexAux] at h
  | cons w ws ih =>
    by_cases hw : p w
    · have h0 : i = 0 := by
        simp [findIndexAux, hw] at h
        omega
      subst h0
      simp
    · cases hrec : findIndexAux p ws with
      | none => simp [findIndexAux, hw, hrec] at h
      | some j =>
        simp only [findIndexAux, if_neg hw, hrec, Option.map] at h
        have hij : i = j + 1 := by
          cases h
          rfl
        subst hij
        have := ih hrec
        simp only [List.length_cons]
        omega

theorem findIndexAux_ne_none_of_mem {p : MWidget → Bool} {ws : List MWidget} {w : MWidget}
    (hmem : w ∈ ws) (hp : p w = true) : findIndexAux p ws ≠ none := by
  induction ws with
  | nil => simp at hmem
  | cons w2 ws ih =>
    by_cases hw2 : p w2
    · simp [findIndexAux, hw2]
    · rcases List.mem_cons.mp hmem with hEq | htail
      · subst hEq
        exact absurd hp (by simpa using hw2)
      · intro hcontra
        simp only [findIndexAux, if_neg hw2] at hcontra
        exact ih htail (by
          cases hrec : findIndexAux p ws with
          | none => rfl
          | some j => simp [hrec] at hcontra)

theorem candidateIndex_get {widgets : List MWidget} {widgetId : String} {i : Nat}
    (h : candidateIndex widgets widgetId = some i) :
    (widgets.get? i).map MWidget.id = some widgetId := by
  obtain ⟨w, hget, hp⟩ := findIndexAux_get h
  rw [hget]
  simp [eq_of_beq hp]

theorem candidateIndex_lt_length {widgets : List MWidget} {widgetId : String} {i : Nat}
    (h : candidateIndex widgets widgetId = some i) : i < widgets.length :=
  findIndexAux_lt_length h

theorem candidateIndex_eq_none_of_not_mem {widgets : List MWidget} {widgetId : String}
    (hnot : widgetId ∉ widgets.map MWidget.id) : candidateIndex widgets widgetId = none := by
  cases h : candidateIndex widgets widgetId with
  | none => rfl
  | some i =>
    obtain ⟨w, hget, hp⟩ := findIndexAux_get h
    exact absurd (List.mem_map_of_mem MWidget.id (List.get?_mem hget))
      (by rwa [← eq_of_beq hp] at hnot)

theorem candidateIndex_isSome_of_mem {widgets : List MWidget} {widgetId : String}
    (hmem : widgetId ∈ widgets.map MWidget.id) :
    ∃ i, candidateIndex widgets widgetId = some i := by
  obtain ⟨w, hw, hid⟩ := List.mem_map.mp hmem
  cases h : candidateIndex widgets widgetId with
  | none => exact absurd h (findIndexAux_ne_none_of_mem hw (by simp [hid]))
  | some i => exact ⟨i, rfl⟩

/-- The localStorage branch of getInitialWidgetIndex: the stored id counts
only when the read does not throw (the try/catch swallows a throw) and a
value is present. -/
def storedCandidateIndex (widgets : List MWidget)
    (storageRead : Except Unit (Option String)) : Option Nat :=
  match storageRead with
  | Except.ok (some s) => candidateIndex widgets s
  | _ => none

/-- getInitialWidgetIndex from MultiWidgetRouter.tsx lines 70 to 98. The URL
parameter is consulted first (a match returns its index), then the stored id
read inside try/catch, then the defaultWidget prop, and finally index 0. The
Option inputs model absent-or-empty values, which the truthiness guards of
the source skip. -/
def getInitialWidgetIndex (widgets : List MWidget) (urlWidgetId : Option String)
    (storageRead : Except Unit (Option String)) (defaultWidget : Option String) : Nat :=
  match urlWidgetId.bind (candidateIndex widgets) with
  | some i => i
  | none =>
    match storedCandidateIndex widgets storageRead with
    | some i => i
    | none =>
      match defaultWidget.bind (candidateIndex widgets) with
      | some i => i
      | none => 0

/-- The id of the widget selected by getInitialWidgetIndex. -/
def initialWidgetId (widgets : List MWidget) (urlWidgetId : Option String)
    (storageRead : Except Unit (Option String)) (defaultWidget : Option String) :
    Option String :=
  (widgets.get? (getInitialWidgetIndex widgets urlWidgetId storageRead defaultWidget)).map
    MWidget.id

/-- Claim C7: the initial widget id follows the precedence URL parameter (if
it names a candidate), then stored value (if its non-throwing read names a
candidate), then the caller-supplied default (if it names a candidate), then
the first candidate of a non-empty list. -/
theorem initial_widget_precedence (widgets : List MWidget) (urlWidgetId : Option String)
    (storageRead : Except Unit (Option String)) (defaultWidget : Option String) :
    (∀ u, urlWidgetId = some u → u ∈ widgets.map MWidget.id →
      initialWidgetId widgets urlWidgetId storageRead defaultWidget = some u) ∧
    ((∀ u, urlWidgetId = some u → u ∉ widgets.map MWidget.id) →
      ∀ s, storageRead = Except.ok (some s) → s ∈ widgets.map MWidget.id →
      initialWidgetId widgets urlWidgetId storageRead defaultWidget = some s) ∧
    ((∀ u, urlWidgetId = some u → u ∉ widgets.map MWidget.id) →
      (∀ s, storageRead = Except.ok (some s) → s ∉ widgets.map MWidget.id) →
      ∀ d, defaultWidget = some d → d ∈ widgets.map MWidget.id →
      initialWidgetId widgets urlWidgetId storageRead defaultWidget = some d) ∧
    ((∀ u, urlWidgetId = some u → u ∉ widgets.map MWidget.id) →
      (∀ s, storageRead = Except.ok (some s) → s ∉ widgets.map MWidget.id) →
      (∀ d, defaultWidget = some d → d ∉ widgets.map MWidget.id) →
      widgets ≠ [] →
      initialWidgetId widgets urlWidgetId storageRead defaultWidget =
        widgets.head?.map MWidget.id) := by
  have urlNone : (∀ u, urlWidgetId = some u → u ∉ widgets.map MWidget.id) →
      urlWidgetId.bind (candidateIndex widgets) = none := by
    intro h
    cases urlWidgetId with
    | none => rfl
    | some u =>
      show candidateIndex widgets u = none
      exact candidateIndex_eq_none_of_not_mem (h u rfl)
  have storeNone : (∀ s, storageRead = Except.ok (some s) → s ∉ widgets.map MWidget.id) →
      storedCandidateIndex widgets storageRead = none := by
    intro h
    cases storageRead with
    | error e => rfl
    | ok v =>
      cases v with
      | none => rfl
      | some s =>
        show candidateIndex widgets s = none
        exact candidateIndex_eq_none_of_not_mem (h s rfl)
  have dfltNone : (∀ d, defaultWidget = some d → d ∉ widgets.map MWidget.id) →
      defaultWidget.bind (candidateIndex widgets) = none := by
    intro h
    cases defaultWidget with
    | none => rfl
    | some d =>
      show candidateIndex widgets d = none
      exact candidateIndex_eq_none_of_not_mem (h d rfl)
  refine ⟨?_, ?_, ?_, ?_⟩
  · intro u hu hmem
    subst hu
    obtain ⟨i, hci⟩ := candidateIndex_isSome_of_mem hmem
    have hidx : getInitialWidgetIndex widgets (some u) storageRead defaultWidget = i := by
      unfold getInitialWidgetIndex
      have hbind : (some u).bind (candidateIndex widgets) = some i := hci
      rw [hbind]
    rw [initialWidgetId, hidx]
    exact candidateIndex_get hci
  · intro hurl s hs hmem
    subst hs
    obtain ⟨i, hci⟩ := candidateIndex_isSome_of_mem hmem
    have hidx : getInitialWidgetIndex widgets urlWidgetId (Except.ok (some s)) defaultWidget
        = i := by
      unfold getInitialWidgetIndex
      rw [urlNone hurl]
      have hstore : storedCandidateIndex widgets (Except.ok (some s)) = some i := hci
      rw [hstore]
    rw [initialWidgetId, hidx]
    exact candidateIndex_get hci
  · intro hurl hstore d hd hmem
    subst hd
    obtain ⟨i, hci⟩ := candidateIndex_isSome_of_mem hmem
    have hidx : getInitialWidgetIndex widgets urlWidgetId storageRead (some d) = i := by
      unfold getInitialWidgetIndex
      rw [urlNone hurl, storeNone hstore]
      have hbind : (some d).bind (candidateIndex widgets) = some i := hci
      rw [hbind]
    rw [initialWidgetId, hidx]
    exact candidateIndex_get hci
  · intro hurl hstore hdflt hne
    have hidx : getInitialWidgetIndex widgets urlWidgetId storageRead defaultWidget = 0 := by
      unfold getInitialWidgetIndex
      rw [urlNone hurl, storeNone hstore, dfltNone hdflt]
    rw [initialWidgetId, hidx]
    cases widgets with
    | nil => exact absurd rfl hne
    | cons w ws => rfl

/-- The candidate widgets of the C7 witness scenario. -/
def widgetsC7 : List MWidget := [⟨"A", "Alpha"⟩, ⟨"B", "Beta"⟩, ⟨"C", "Gamma"⟩]

/-- Witness for the C7 theorem: with URL parameter B, stored value A and
default C over candidates A, B, C, the initial widget id is B. -/
theorem initial_widget_precedence_witness :
    "B" ∈ widgetsC7.map MWidget.id ∧
    initialWidgetId widgetsC7 (some "B") (Except.ok (some "A")) (some "C") = some "B" :=
  ⟨by decide,
    (initial_widget_precedence widgetsC7 (some "B") (Except.ok (some "A")) (some "C")).1
      "B" rfl (by decide)⟩

/-- The two persistence backends written by a selection commit: the widget
query parameter of the URL and the stored widget id of local storage. -/
structure PersistedState where
  urlWidgetParam : Option String
  storedWidget : Option String
deriving DecidableEq

/-- Writing the widget id to the URL (URL construction plus pushState); the
flag says whether the URL API throws in this environment. -/
def pushUrlOp (urlThrows : Bool) (widgetId : String) (p : PersistedState) :
    Except Unit PersistedState :=
  if urlThrows then Except.error ()
  else Except.ok { p with urlWidgetParam := some widgetId }

/-- localStorage.setItem of the widget id; the flag says whether storage
throws (private browsing, sandboxed frame). -/
def setItemOp (storageThrows : Bool) (widgetId : String) (p : PersistedState) :
    Except Unit PersistedState :=
  if storageThrows then Except.error ()
  else Except.ok { p with storedWidget := some widgetId }

/-- The persistence part of handleWidgetChange from MultiWidgetRouter.tsx
lines 105 to 124: the URL write and the storage write each sit in their own
try/catch whose catch ignores the failure, so a throwing backend leaves the
corresponding value unchanged and the function always returns normally. -/
def handleWidgetChangePersist (urlThrows storageThrows : Bool) (widgetId : String)
    (p : PersistedState) : Except Unit PersistedState :=
  let p1 :=
    match pushUrlOp urlThrows widgetId p with
    | Except.ok q => q
    | Except.error _ => p
  let p2 :=
    match setItemOp storageThrows widgetId p1 with
    | Except.ok q => q
    | Except.error _ => p1
  Except.ok p2

/-- The URL-sync effect of DevContainer.tsx lines 178 to 196: when the widget
selector is shown, the widget parameter is set (or deleted for the synthetic
default id), pushState runs when the URL would change, and then
localStorage.setItem runs; none of these writes is guarded by try/catch, so a
throwing backend propagates its exception out of the effect. -/
def updateUrlEffect (urlThrows storageThrows : Bool) (showWidgetSelector : Bool)
    (activeWidgetId : String) (p : PersistedState) : Except Unit PersistedState :=
  if !showWidgetSelector then Except.ok p
  else
    let desired : Option String :=
      if activeWidgetId != "" && activeWidgetId != "default" then some activeWidgetId
      else none
    match (if p.urlWidgetParam = desired then Except.ok p
           else if urlThrows then Except.error ()
           else Except.ok { p with urlWidgetParam := desired }) with
    | Except.error e => Except.error e
    | Except.ok p1 =>
        if activeWidgetId != "" then setItemOp storageThrows activeWidgetId p1
        else Except.ok p1

/-- Claim C8 counterexample: with storage unavailable, the widget URL-sync
commit of DevContainer propagates the storage exception to its caller instead
of silently skipping persistence. -/
theorem devcontainer_urlsync_storage_failure_propagates_cex :
    updateUrlEffect false true true "a" { urlWidgetParam := none, storedWidget := none } =
      Except.error () := by
  rfl

/-- Claim C8, amended: the selection commit of MultiWidgetRouter
(handleWidgetChange) tolerates persistence failure: whatever combination of
backends throws, it returns normally, a failing backend leaves its value
untouched and a working backend records the widget id; but the widget
URL-sync effect of DevContainer performs unguarded writes, so a storage
failure there propagates to the caller. -/
theorem router_commit_tolerates_persistence_failure (urlThrows storageThrows : Bool)
    (widgetId : String) (p : PersistedState) :
    handleWidgetChangePersist urlThrows storageThrows widgetId p =
      Except.ok
        { urlWidgetParam := if urlThrows then p.urlWidgetParam else some widgetId
          storedWidget := if storageThrows then p.storedWidget else some widgetId } := by
  cases urlThrows <;> cases storageThrows <;> rfl

/-- Normalization of the DevContainer configuration (DevContainer.tsx lines
119 to 127): a non-empty widgets prop wins, else a single child becomes one
synthetic widget with id default, else the list is empty. The function is
total: empty input yields the empty list and never throws. -/
def normalizedWidgets {L : Type} (widgets : Option (List (Widget L))) (hasChildren : Bool) :
    List (Widget L) :=
  match widgets with
  | some ws =>
    if ws.length > 0 then ws
    else if hasChildren then [{ id := "default", name := "App" }] else []
  | none => if hasChildren then [{ id := "default", name := "App" }] else []

/-- What the body of DevContainer renders for the widget area. -/
inductive RenderResult (L : Type) where
  | noWidgetConfigured
  | widgetView (w : Widget L)
deriving DecidableEq

/-- The active-widget selection and fallback of DevContainer.tsx lines 386 to
389: the widget matching the active id, else the first widget, else the
no-widget-configured message. -/
def renderActiveWidget {L : Type} (widgets : List (Widget L)) (activeWidgetId : String) :
    RenderResult L :=
  match (match findWidget widgets activeWidgetId with
         | some w => some w
         | none => widgets.head?) with
  | none => RenderResult.noWidgetConfigured
  | some w => RenderResult.widgetView w

/-- The widget-component selection of MultiWidgetRouter.tsx lines 145 to 148:
widgets[activeIndex].component. A none result models the indexing miss on
which the component access throws a TypeError. -/
def mwrActiveWidget (widgets : List MWidget) (activeIndex : Nat) : Option MWidget :=
  widgets.get? activeIndex

/-- Claim C9 counterexample: MultiWidgetRouter given an empty widget list
computes initial index 0 and its widget-component selection finds no entry,
so accessing the component crashes instead of showing a nothing-configured
state. -/
theorem multiwidgetrouter_empty_list_crash_cex :
    getInitialWidgetIndex [] none (Except.ok none) none = 0 ∧
    mwrActiveWidget [] (getInitialWidgetIndex [] none (Except.ok none) none) = none := by
  exact ⟨rfl, rfl⟩

/-- Claim C9, amended: normalizing an empty configuration never throws and
yields the empty canonical list, and DevContainer rendering with an empty
registry shows the nothing-configured state; MultiWidgetRouter however
requires a non-empty widget list: on a non-empty list its component selection
always finds a widget, while on an empty list it crashes (see the
counterexample). -/
theorem empty_config_normalization_total {L : Type} (widgets : List MWidget)
    (urlWidgetId : Option String) (storageRead : Except Unit (Option String))
    (defaultWidget : Option String) (hne : widgets ≠ []) :
    normalizedWidgets (none : Option (List (Widget L))) false = [] ∧
    normalizedWidgets (some ([] : List (Widget L))) false = [] ∧
    (∀ activeWidgetId,
      renderActiveWidget ([] : List (Widget L)) activeWidgetId =
        RenderResult.noWidgetConfigured) ∧
    mwrActiveWidget widgets
      (getInitialWidgetIndex widgets urlWidgetId storageRead defaultWidget) ≠ none := by
  refine ⟨rfl, rfl, fun _ => rfl, ?_⟩
  have hlt : getInitialWidgetIndex widgets urlWidgetId storageRead defaultWidget <
      widgets.length := by
    unfold getInitialWidgetIndex
    cases h1 : urlWidgetId.bind (candidateIndex widgets) with
    | some i =>
      cases urlWidgetId with
      | none => simp [Option.bind] at h1
      | some u => exact candidateIndex_lt_length h1
    | none =>
      cases h2 : storedCandidateIndex widgets storageRead with
      | some i =>
        cases storageRead with
        | error e => simp [storedCandidateIndex] at h2
        | ok v =>
          cases v with
          | none => simp [storedCandidateIndex] at h2
          | some s => exact candidateIndex_lt_length h2
      | none =>
        cases h3 : defaultWidget.bind (candidateIndex widgets) with
        | some i =>
          cases defaultWidget with
          | none => simp [Option.bind] at h3
          | some d => exact candidateIndex_lt_length h3
        | none =>
          cases widgets with
          | nil => exact absurd rfl hne
          | cons w ws => simp
  intro hcontra
  rw [mwrActiveWidget, List.get?_eq_none] at hcontra
  omega

/-- Witness for the C9 theorem: a one-widget list makes the component
selection of MultiWidgetRouter succeed, while the empty-configuration clauses
hold at the payload type Nat. -/
theorem empty_config_normalization_total_witness :
    (([⟨"a", "A"⟩] : List MWidget) ≠ []) ∧
    (normalizedWidgets (none : Option (List (Widget Nat))) false = [] ∧
      normalizedWidgets (some ([] : List (Widget Nat))) false = [] ∧
      (∀ activeWidgetId,
        renderActiveWidget ([] : List (Widget Nat)) activeWidgetId =
          RenderResult.noWidgetConfigured) ∧
      mwrActiveWidget [⟨"a", "A"⟩]
        (getInitialWidgetIndex [⟨"a", "A"⟩] none (Except.ok none) none) ≠ none) :=
  ⟨by decide,
    empty_config_normalization_total (L := Nat) [⟨"a", "A"⟩] none (Except.ok none) none
      (by decide)⟩

/-- The selection captured by a delayed load when it starts: the active widget
id and active data-source key of the render closure in which the auto-reload
effect ran. -/
structure Selection where
  widgetId : String
  dataSourceKey : String
deriving DecidableEq

/-- The event-loop state of the delayed-load protocol of part_005: the
component state, the FIFO queue of delayed loads whose common timer delay has
not yet elapsed (each holding its captured selection), and the log of partial
updates dispatched through setGlobals, oldest first. -/
structure DelayedMachine (α : Type) where
  dc : DCState α
  pending : List Selection
  published : List (OpenAiGlobals α)
deriving DecidableEq

/-- setGlobals against the machine: merge into window.openai and append the
dispatched partial update to the log. -/
def dispatchSetGlobals {α : Type} (m : DelayedMachine α) (patch : OpenAiGlobals α) :
    DelayedMachine α :=
  { m with dc := applySetGlobals m.dc patch, published := m.published ++ [patch] }

/-- The synchronous prefix of handleDelayedData (part_005 lines 370 to 374 and
DevContainer.tsx lines 314 to 320): set phase loading, set isLoading, publish
toolOutput null, then await the timer, which enqueues the load with its
captured selection. No sequence counter is taken. -/
def handleDelayedDataStart {α : Type} (sel : Selection) (m : DelayedMachine α) :
    DelayedMachine α :=
  let m1 : DelayedMachine α :=
    { m with dc := { m.dc with widgetState := Phase.loading, isLoading := true } }
  let m2 := dispatchSetGlobals m1 { toolOutput := some ToolOutput.null }
  { m2 with pending := m2.pending ++ [sel] }

/-- The toolOutput value that the post-delay body publishes for a captured
selection, given the observed loader resolution and run for that selection:
an empty object without a loader, the loader value on success, the normalized
error object on a throw. -/
def loadOutcome {α : Type} (resolve : Selection → Option (Except LoaderFailure α))
    (sel : Selection) : ToolOutput α :=
  match resolve sel with
  | none => ToolOutput.emptyObj
  | some (Except.ok value) => ToolOutput.data value
  | some (Except.error e) => ToolOutput.errObj (failureMessage e)

/-- The partial update dispatched by the post-delay body for a selection. -/
def loadPatch {α : Type} (resolve : Selection → Option (Except LoaderFailure α))
    (sel : Selection) : OpenAiGlobals α :=
  { toolOutput := some (loadOutcome resolve sel) }

/-- The toolOutput-null partial update published when a delayed load starts. -/
def nullPatch {α : Type} : OpenAiGlobals α := { toolOutput := some ToolOutput.null }

/-- The post-delay body of handleDelayedData (part_005 lines 376 to 397),
run when the oldest pending timer fires: resolve the loader for the captured
selection, publish its outcome, commit phase data or error, clear isLoading.
There is no supersession check: the body runs for every pending load in FIFO
order, also for loads whose selection is no longer current. -/
def handleDelayedDataFire {α : Type} (resolve : Selection → Option (Except LoaderFailure α))
    (m : DelayedMachine α) : DelayedMachine α :=
  match m.pending with
  | [] => m
  | sel :: rest =>
    let m0 : DelayedMachine α := { m with pending := rest }
    let m1 :=
      match resolve sel with
      | none =>
        let m2 := dispatchSetGlobals m0 { toolOutput := some ToolOutput.emptyObj }
        { m2 with dc := { m2.dc with widgetState := Phase.data } }
      | some (Except.ok value) =>
        let m2 := dispatchSetGlobals m0 { toolOutput := some (ToolOutput.data value) }
        { m2 with dc := { m2.dc with widgetState := Phase.data } }
      | some (Except.error e) =>
        let m2 : DelayedMachine α := { m0 with dc := { m0.dc with widgetState := Phase.error } }
        dispatchSetGlobals m2 { toolOutput := some (ToolOutput.errObj (failureMessage e)) }
    { m1 with dc := { m1.dc with isLoading := false } }

/-- Fire the given number of pending timers, oldest first. -/
def fireAllAux {α : Type} (resolve : Selection → Option (Except LoaderFailure α)) :
    Nat → DelayedMachine α → DelayedMachine α
  | 0, m => m
  | n + 1, m => fireAllAux resolve n (handleDelayedDataFire resolve m)

/-- The scenario of the supersession claim: a sequence of selection changes
issued back to back (each triggering handleDelayedData within the loading
delay of the previous one), after which every pending timer elapses; timers
with the same delay fire in first-in-first-out order. -/
def runSelections {α : Type} (resolve : Selection → Option (Except LoaderFailure α))
    (sels : List Selection) (m0 : DelayedMachine α) : DelayedMachine α :=
  let started := sels.foldl (fun m sel => handleDelayedDataStart sel m) m0
  fireAllAux resolve started.pending.length started

/-- The last element of a selection sequence (the final selection). -/
def lastSelection : List Selection → Option Selection
  | [] => none
  | [sel] => some sel
  | _ :: sel2 :: rest => lastSelection (sel2 :: rest)

theorem handleDelayedDataFire_cons {α : Type}
    (resolve : Selection → Option (Except LoaderFailure α)) (m : DelayedMachine α)
    (sel : Selection) (rest : List Selection) (h : m.pending = sel :: rest) :
    (handleDelayedDataFire resolve m).pending = rest ∧
    (handleDelayedDataFire resolve m).published = m.published ++ [loadPatch resolve sel] ∧
    toolOutputOf (handleDelayedDataFire resolve m).dc = some (loadOutcome resolve sel) := by
  cases hres : resolve sel with
  | none =>
    refine ⟨?_, ?_, ?_⟩ <;>
      simp [handleDelayedDataFire, h, hres, loadPatch, loadOutcome, toolOutputOf,
        dispatchSetGlobals, applySetGlobals, objectAssign, orField]
  | some run =>
    cases run with
    | ok value =>
      refine ⟨?_, ?_, ?_⟩ <;>
        simp [handleDelayedDataFire, h, hres, loadPatch, loadOutcome, toolOutputOf,
          dispatchSetGlobals, applySetGlobals, objectAssign, orField]
    | error e =>
      refine ⟨?_, ?_, ?_⟩ <;>
        simp [handleDelayedDataFire, h, hres, loadPatch, loadOutcome, toolOutputOf,
          dispatchSetGlobals, applySetGlobals, objectAssign, orField]

theorem fireAllAux_published {α : Type}
    (resolve : Selection → Option (Except LoaderFailure α)) (q : List Selection) :
    ∀ m : DelayedMachine α, m.pending = q →
      (fireAllAux resolve q.length m).published = m.published ++ q.map (loadPatch resolve) ∧
      (fireAllAux resolve q.length m).pending = [] := by
  induction q with
  | nil =>
    intro m h
    exact ⟨by simp [fireAllAux], by simpa [fireAllAux] using h⟩
  | cons sel rest ih =>
    intro m h
    obtain ⟨hp, hpub, _⟩ := handleDelayedDataFire_cons resolve m sel rest h
    obtain ⟨ihpub, ihpend⟩ := ih (handleDelayedDataFire resolve m) hp
    constructor
    · show (fireAllAux resolve rest.length (handleDelayedDataFire resolve m)).published = _
      rw [ihpub, hpub]
      simp
    · exact ihpend


theorem fireAllAux_last {α : Type}
    (resolve : Selection → Option (Except LoaderFailure α)) (q : List Selection) :
    ∀ (m : DelayedMachine α) (slast : Selection), m.pending = q →
      lastSelection q = some slast →
      toolOutputOf (fireAllAux resolve q.length m).dc = some (loadOutcome resolve slast) := by
  induction q with
  | nil =>
    intro m slast _ hlast
    simp [lastSelection] at hlast
  | cons sel rest ih =>
    intro m slast h hlast
    cases rest with
    | nil =>
      have hsel : slast = sel := by
        simp [lastSelection] at hlast
        exact hlast.symm
      subst hsel
      obtain ⟨_, _, hout⟩ := handleDelayedDataFire_cons resolve m slast [] h
      simpa [fireAllAux] using hout
    | cons sel2 rest2 =>
      have hlast2 : lastSelection (sel2 :: rest2) = some slast := hlast
      obtain ⟨hp, _, _⟩ := handleDelayedDataFire_cons resolve m sel (sel2 :: rest2) h
      exact ih (handleDelayedDataFire resolve m) slast hp hlast2

theorem startSelections_spec {α : Type} (sels : List Selection) :
    ∀ m0 : DelayedMachine α,
      (sels.foldl (fun m sel => handleDelayedDataStart sel m) m0).pending =
        m0.pending ++ sels ∧
      (sels.foldl (fun m sel => handleDelayedDataStart sel m) m0).published =
        m0.published ++ sels.map (fun _ => nullPatch) := by
  induction sels with
  | nil => intro m0; simp
  | cons sel rest ih =>
    intro m0
    obtain ⟨ihpend, ihpub⟩ := ih (handleDelayedDataStart sel m0)
    constructor
    · show (rest.foldl (fun m sel => handleDelayedDataStart sel m)
        (handleDelayedDataStart sel m0)).pending = _
      rw [ihpend]
      simp [handleDelayedDataStart, dispatchSetGlobals]
    · show (rest.foldl (fun m sel => handleDelayedDataStart sel m)
        (handleDelayedDataStart sel m0)).published = _
      rw [ihpub]
      simp [handleDelayedDataStart, dispatchSetGlobals, nullPatch]

/-- Claim C1, amended: there is no supersession. Every delayed load, when its
timer elapses, resolves and publishes the outcome for its own captured
selection, whether or not it was superseded by a later selection change; with
a common delay the timers fire in start order, so after the burst settles the
committed toolOutput is the outcome of the final selection, every selection
of the burst, intermediate ones included, has had its outcome published as
toolOutput, and no load stays pending. -/
theorem delayed_load_publish_order {α : Type}
    (resolve : Selection → Option (Except LoaderFailure α)) (sels : List Selection)
    (m0 : DelayedMachine α) (hpend : m0.pending = []) (slast : Selection)
    (hlast : lastSelection sels = some slast) :
    toolOutputOf (runSelections resolve sels m0).dc = some (loadOutcome resolve slast) ∧
    (∀ sel ∈ sels, loadPatch resolve sel ∈ (runSelections resolve sels m0).published) ∧
    (runSelections resolve sels m0).pending = [] := by
  have hstart := startSelections_spec (α := α) sels m0
  have hpending : (sels.foldl (fun m sel => handleDelayedDataStart sel m) m0).pending
      = sels := by
    rw [hstart.1, hpend]
    simp
  have hfire := fireAllAux_published resolve sels
    (sels.foldl (fun m sel => handleDelayedDataStart sel m) m0) hpending
  have hlen : (sels.foldl (fun m sel => handleDelayedDataStart sel m) m0).pending.length
      = sels.length := by rw [hpending]
  refine ⟨?_, ?_, ?_⟩
  · show toolOutputOf (fireAllAux resolve _ _).dc = _
    rw [hlen]
    exact fireAllAux_last resolve sels _ slast hpending hlast
  · intro sel hmem
    show loadPatch resolve sel ∈ (fireAllAux resolve _ _).published
    rw [hlen, hfire.1]
    exact List.mem_append_right _ (List.mem_map_of_mem (loadPatch resolve) hmem)
  · show (fireAllAux resolve _ _).pending = []
    rw [hlen]
    exact hfire.2

/-- The first (superseded) selection of the counterexample burst. -/
def selA : Selection := { widgetId := "A", dataSourceKey := "k" }

/-- The final selection of the counterexample burst. -/
def selB : Selection := { widgetId := "B", dataSourceKey := "k" }

/-- The loader resolution of the counterexample: the loader of selection A
yields 1, every other selection yields 2. -/
def resolveC1 : Selection → Option (Except LoaderFailure Nat) :=
  fun sel => if sel = selA then some (Except.ok 1) else some (Except.ok 2)

/-- The machine at mount: phase loading, nothing pending, nothing published. -/
def m0C1 : DelayedMachine Nat :=
  { dc := { widgetState := Phase.loading, isLoading := false, openai := none }
    pending := []
    published := [] }

/-- Claim C1 counterexample: switching the selection from A to B faster than
the loading delay does not suppress the superseded load of A. When the timers
elapse, the load captured for A publishes toolOutput data 1 even though the
final selection is B, so a result for an intermediate selection is observed
as toolOutput, refuting that a superseded delayed load performs no publish. -/
theorem superseded_delayed_load_publishes_cex :
    selA ≠ selB ∧
    lastSelection [selA, selB] = some selB ∧
    ({ toolOutput := some (ToolOutput.data 1) } : OpenAiGlobals Nat) ∈
      (runSelections resolveC1 [selA, selB] m0C1).published ∧
    loadPatch resolveC1 selA =
      ({ toolOutput := some (ToolOutput.data 1) } : OpenAiGlobals Nat) ∧
    toolOutputOf (runSelections resolveC1 [selA, selB] m0C1).dc =
      some (ToolOutput.data 2) := by
  decide

/-- Witness for the C1 theorem at the concrete two-selection burst. -/
theorem delayed_load_publish_order_witness :
    m0C1.pending = [] ∧ lastSelection [selA, selB] = some selB ∧
    (toolOutputOf (runSelections resolveC1 [selA, selB] m0C1).dc =
        some (loadOutcome resolveC1 selB) ∧
      (∀ sel ∈ [selA, selB],
        loadPatch resolveC1 sel ∈ (runSelections resolveC1 [selA, selB] m0C1).published) ∧
      (runSelections resolveC1 [selA, selB] m0C1).pending = []) :=
  ⟨rfl, rfl, delayed_load_publish_order resolveC1 [selA, selB] m0C1 rfl selB rfl⟩

end Devtools
